import Mathlib

/-!
Verification of the PTVEconomy repository (a Discord virtual-currency bot).

The repository has two database layers:
- `bot.py` works on a `balances` table (BIGINT balance with CHECK (balance >= 0))
  and two cooldown tables; all commands (`give`, `daily`, message reward,
  `add_money` via `update_balance`, `set_money` via `set_balance`) inline
  their own SQL against it.
- `db.py` holds a legacy `Database` class over a `users` table (no CHECK
  constraint) plus the shop tables (`shop_items`, `user_purchases`).

Modelling choices:
- user ids are `Nat`, money amounts and balances are `Int`.
- the `balances` table (bot.py) is a total function `Nat → Int` with absent
  rows identified with balance 0: every upsert in bot.py uses an insert value
  that coincides with the update expression evaluated at balance 0, so the
  identification is behaviour-preserving.
- the `users` table (db.py) is `Nat → Option Int` (`none` = no row), because
  plain `UPDATE` statements there are no-ops on absent rows.
- timestamps are integers (seconds); `timedelta(hours=24)` is 86400 and
  `timedelta(seconds=20)` is 20.
- the tax of `/give` is `max(1, int(amount * 0.02))` in Python floats; for
  every amount in 1..1000000 (all values that pass the command's cap guard)
  the float expression equals the integer floor `amount * 2 / 100`
  (checked exhaustively), so the tax is embedded as that integer floor.
-/

abbrev UserId := Nat

/-- The `balances` table of bot.py: user id to stored balance, absent row = 0. -/
abbrev Bal := UserId → Int

/-- Apply a signed delta to one account, as the upserts
`balance = balances.balance + EXCLUDED.balance` do. -/
def addBal (b : Bal) (u : UserId) (d : Int) : Bal :=
  fun v => if v = u then b v + d else b v

/-- bot.py `get_balance`: `max(0, result) if result is not None else 0`. -/
def get_balance (b : Bal) (u : UserId) : Int :=
  max 0 (b u)

/-- bot.py `update_balance(user_id, amount)`: inside one transaction, when
`amount < 0` it first reads the current balance and returns `False` (no
mutation) if `current + amount < 0`; otherwise it upserts
`GREATEST(0, balances.balance + EXCLUDED.balance)`.  Returns the success
flag and the new table. -/
def update_balance (b : Bal) (u : UserId) (amount : Int) : Bool × Bal :=
  if amount < 0 ∧ b u + amount < 0 then
    (false, b)
  else
    (true, fun v => if v = u then max 0 (b u + amount) else b v)

/-- bot.py `set_balance(user_id, amount)`: upserts `max(0, amount)`
(the floor is taken in Python before the query). -/
def set_balance (b : Bal) (u : UserId) (amount : Int) : Bal :=
  fun v => if v = u then max 0 amount else b v

/-- The hard-coded fee-sink account of `/give` (`OWNER_ID` in bot.py). -/
def OWNER_ID : UserId := 691351470272020501

/-- The `/give` tax: `max(1, int(amount * 0.02))`; the float expression
equals this integer floor for every amount the command lets through
(1 ≤ amount ≤ 1000000, checked exhaustively). -/
def giveTax (amount : Int) : Int :=
  max 1 (amount * 2 / 100)

/-- Outcome of the `/give` command; each constructor is one of the distinct
user-facing rejection messages, plus success. -/
inductive GiveResult where
  | ok (net tax : Int)
  | invalidAmount
  | tooLarge
  | selfTransfer
  | botReceiver
  | insufficient (cur : Int)
  deriving DecidableEq, Repr

/-- The transactional core of `/give` (bot.py lines 468-514): computes
`tax` and `net`, re-reads the sender balance inside the transaction,
rejects if it is below `amount`, otherwise debits the sender by `amount`,
credits the receiver by `net` and credits `OWNER_ID` by `tax`. -/
def giveCore (b : Bal) (sender receiver : UserId) (amount : Int) :
    GiveResult × Bal :=
  let tax := giveTax amount
  let net := amount - tax
  if b sender < amount then
    (.insufficient (b sender), b)
  else
    (.ok net tax, addBal (addBal (addBal b sender (-amount)) receiver net) OWNER_ID tax)

/-- The full `/give` command (bot.py lines 444-521): the four guards in
source order (non-positive amount, cap at 1,000,000, self transfer,
bot receiver), then the transactional core. -/
def give (b : Bal) (sender receiver : UserId) (receiverIsBot : Bool)
    (amount : Int) : GiveResult × Bal :=
  if amount ≤ 0 then (.invalidAmount, b)
  else if amount > 1000000 then (.tooLarge, b)
  else if sender = receiver then (.selfTransfer, b)
  else if receiverIsBot then (.botReceiver, b)
  else giveCore b sender receiver amount

/-- State touched by the cooldown-gated rewards of bot.py: the `balances`
table plus the `daily_cooldowns.last_claim` and
`message_cooldowns.last_message` columns. -/
structure BotState where
  bal : Bal
  lastDaily : UserId → Option Int
  lastMsg : UserId → Option Int

/-- Outcome of the `!daily` command. -/
inductive DailyResult where
  | granted (newBalance : Int)
  | cooldown (remaining : Int)
  deriving DecidableEq, Repr

/-- The `!daily` command (bot.py lines 310-397): if a last claim exists and
less than 24h (86400 s) elapsed, report the remaining time and change
nothing; otherwise add the gain of 50 to the balance and record `now` as the
last claim.  (The code performs the cooldown check twice, before and inside
the serializable transaction; sequentially both checks read the same row, so
one check is modelled.) -/
def daily (st : BotState) (u : UserId) (now : Int) : DailyResult × BotState :=
  let grant : DailyResult × BotState :=
    (.granted (st.bal u + 50),
      { st with
        bal := addBal st.bal u 50
        lastDaily := fun v => if v = u then some now else st.lastDaily v })
  match st.lastDaily u with
  | some t =>
    if now - t < 86400 then
      (.cooldown (86400 - (now - t)), st)
    else grant
  | none => grant

/-- The message micro-reward of `on_message` (bot.py lines 680-730), for a
non-bot author: if no last message is recorded or at least 20 s elapsed,
add 1 to the balance and record `now`; otherwise do nothing.  Returns
whether the reward was granted. -/
def onMessage (st : BotState) (u : UserId) (now : Int) : Bool × BotState :=
  let expired : Bool :=
    match st.lastMsg u with
    | some t => decide (20 ≤ now - t)
    | none => true
  if expired then
    (true,
      { st with
        bal := addBal st.bal u 1
        lastMsg := fun v => if v = u then some now else st.lastMsg v })
  else
    (false, st)

/-- The balance-mutating operations of the bot layer (bot.py); used to state
the non-negativity invariant over arbitrary operation sequences. -/
inductive BotOp where
  | adjust (u : UserId) (amount : Int)
  | setTo (u : UserId) (amount : Int)
  | claimDaily (u : UserId) (now : Int)
  | message (u : UserId) (now : Int)
  | giveCmd (sender receiver : UserId) (receiverIsBot : Bool) (amount : Int)

/-- One bot-layer operation applied to the state (the two pure-balance
operations leave the cooldown columns unchanged). -/
def botStep (op : BotOp) (st : BotState) : BotState :=
  match op with
  | .adjust u amount => { st with bal := (update_balance st.bal u amount).2 }
  | .setTo u amount => { st with bal := set_balance st.bal u amount }
  | .claimDaily u now => (daily st u now).2
  | .message u now => (onMessage st u now).2
  | .giveCmd s r isBot amount => { st with bal := (give st.bal s r isBot amount).2 }

/-- All stored balances of a bot-layer table are non-negative. -/
def NonNeg (b : Bal) : Prop := ∀ u, 0 ≤ b u

/-! ### The legacy db.py `Database` layer

The `users` table has no CHECK constraint, and its mutations have different
semantics from bot.py: `update_balance` adds unconditionally, `set_balance`
stores the given amount as is, `transfer` takes no fee and has no
self-transfer check.  Absent rows matter here (a plain `UPDATE` is a no-op
on them), so the table is `Nat → Option Int`. -/

/-- The db.py `users` table: `none` means no row for that user. -/
abbrev UsersTable := UserId → Option Int

/-- `INSERT ... ON CONFLICT DO UPDATE SET balance = users.balance + EXCLUDED.balance`:
inserts `amount` when the row is absent, otherwise adds `amount`. -/
def usersUpsertAdd (t : UsersTable) (u : UserId) (amount : Int) : UsersTable :=
  fun v => if v = u then some ((t u).getD 0 + amount) else t v

/-- `UPDATE users SET balance = balance - amount WHERE user_id = u`:
a no-op when the row is absent. -/
def usersDebit (t : UsersTable) (u : UserId) (amount : Int) : UsersTable :=
  fun v => if v = u then (t u).map (fun b => b - amount) else t v

/-- db.py `get_balance`: `row["balance"] if row else 0` (no floor). -/
def db_get_balance (t : UsersTable) (u : UserId) : Int :=
  (t u).getD 0

/-- db.py `update_balance`: unconditional upsert-add, no floor, no check. -/
def db_update_balance (t : UsersTable) (u : UserId) (amount : Int) : UsersTable :=
  usersUpsertAdd t u amount

/-- db.py `set_balance`: stores `amount` exactly (no floor). -/
def db_set_balance (t : UsersTable) (u : UserId) (amount : Int) : UsersTable :=
  fun v => if v = u then some amount else t v

/-- db.py `transfer(giver, receiver, amount)`: rejects `amount <= 0`, rejects
when the giver row is absent or its balance is below `amount`; otherwise
debits the giver by `amount` and upsert-adds the full `amount` to the
receiver (no fee, no self-transfer check). -/
def db_transfer (t : UsersTable) (giver receiver : UserId) (amount : Int) :
    Bool × UsersTable :=
  if amount ≤ 0 then (false, t)
  else
    match t giver with
    | none => (false, t)
    | some bg =>
      if bg < amount then (false, t)
      else (true, usersUpsertAdd (usersDebit t giver amount) receiver amount)

/-! ### The shop (db.py) -/

/-- A row of `shop_items` (the fields purchase logic reads). -/
structure ShopItem where
  price : Int
  type : String
  isActive : Bool
  deriving DecidableEq, Repr

/-- A row of `user_purchases` (the fields purchase logic reads/writes). -/
structure Purchase where
  userId : UserId
  itemId : Nat
  pricePaid : Int
  deriving DecidableEq, Repr

/-- State read and written by the shop operations of db.py. -/
structure ShopState where
  users : UsersTable
  items : Nat → Option ShopItem
  purchases : List Purchase

/-- Whether a `user_purchases` row exists for `(u, i)`
(the `SELECT 1 FROM user_purchases WHERE user_id = $1 AND item_id = $2`). -/
def hasRecord (ps : List Purchase) (u : UserId) (i : Nat) : Bool :=
  ps.any fun p => p.userId == u && p.itemId == i

/-- Number of `user_purchases` rows for `(u, i)`. -/
def recordCount (ps : List Purchase) (u : UserId) (i : Nat) : Nat :=
  (ps.filter fun p => p.userId == u && p.itemId == i).length

/-- Outcome of `purchase_item`; each constructor is one of the distinct
returned messages. -/
inductive PurchaseResult where
  | ok
  | itemUnavailable
  | alreadyOwned
  | insufficient (cur : Int)
  deriving DecidableEq, Repr

/-- db.py `purchase_item(user_id, item_id)` (lines 274-327), one atomic
transaction: load the item `WHERE id = $1 AND is_active = TRUE`, failing
when missing or inactive; for items of type `"role"` fail when a purchase
record already exists; read the buyer balance (0 when the row is absent)
and fail when it is below the price; otherwise debit the buyer by the price
(plain `UPDATE`) and append a purchase record carrying the price paid.
Every failure returns before any mutation, so it leaves the state
unchanged. -/
def purchase_item (st : ShopState) (u : UserId) (i : Nat) :
    PurchaseResult × ShopState :=
  match st.items i with
  | none => (.itemUnavailable, st)
  | some it =>
    if !it.isActive then (.itemUnavailable, st)
    else if it.type == "role" && hasRecord st.purchases u i then
      (.alreadyOwned, st)
    else
      let cur := (st.users u).getD 0
      if cur < it.price then (.insufficient cur, st)
      else
        (.ok,
          { st with
            users := usersDebit st.users u it.price
            purchases := st.purchases ++ [⟨u, i, it.price⟩] })

/-! ### Top-balances listing

`get_top_users` (db.py lines 153-166) and the `/classement` command
(bot.py lines 407-413) both run
`SELECT user_id, balance FROM ... WHERE balance > 0 ORDER BY balance DESC LIMIT n`.
The table is modelled as a list of rows; `ORDER BY balance DESC` (whose tie
order SQL leaves unspecified) is modelled by insertion sort on the balance,
descending. -/

/-- Insert a row into a list sorted by balance descending. -/
def insertDesc (p : UserId × Int) : List (UserId × Int) → List (UserId × Int)
  | [] => [p]
  | q :: qs => if q.2 < p.2 then p :: q :: qs else q :: insertDesc p qs

/-- Sort rows by balance descending. -/
def sortDesc : List (UserId × Int) → List (UserId × Int)
  | [] => []
  | p :: ps => insertDesc p (sortDesc ps)

/-- db.py `get_top_users(limit)`: keep the rows with strictly positive
balance, order by balance descending, truncate to `limit`. -/
def get_top_users (rows : List (UserId × Int)) (limit : Nat) :
    List (UserId × Int) :=
  (sortDesc (rows.filter fun p => decide (0 < p.2))).take limit

/-! ## Helper lemmas -/

theorem addBal_eq (b : Bal) (u : UserId) (d : Int) : addBal b u d u = b u + d := by
  simp [addBal]

theorem addBal_ne (b : Bal) (u v : UserId) (d : Int) (h : v ≠ u) :
    addBal b u d v = b v := by
  simp [addBal, h]

theorem giveTax_pos (a : Int) : 1 ≤ giveTax a := by
  simp [giveTax]

theorem giveTax_le (a : Int) (h : 1 ≤ a) : giveTax a ≤ a := by
  have hdiv : a * 2 / 100 ≤ a := by omega
  simp [giveTax]
  omega

/-! ## Claim theorems -/

/-- C1: the transfer core of `/give` (the operation reached once the
command guards pass), on a positive amount within the command's cap, with
the sender owning at least the amount and the three accounts pairwise
distinct: it succeeds, the sender's balance decreases by exactly the
amount, the receiver's increases by exactly `amount - tax`, the fee sink
(`OWNER_ID`) increases by exactly `tax = max(1, floor(amount * 2 / 100))`,
and the sum of the three balances is unchanged. -/
theorem give_transfer_conserves (b : Bal) (s r : UserId) (a : Int)
    (_hpos : 0 < a) (_hcap : a ≤ 1000000) (hsr : s ≠ r)
    (hso : s ≠ OWNER_ID) (hro : r ≠ OWNER_ID) (hbal : a ≤ b s) :
    (giveCore b s r a).1 = .ok (a - giveTax a) (giveTax a) ∧
    (giveCore b s r a).2 s = b s - a ∧
    (giveCore b s r a).2 r = b r + (a - giveTax a) ∧
    (giveCore b s r a).2 OWNER_ID = b OWNER_ID + giveTax a ∧
    (giveCore b s r a).2 s + (giveCore b s r a).2 r
        + (giveCore b s r a).2 OWNER_ID = b s + b r + b OWNER_ID := by
  have hnl : ¬ b s < a := not_lt.mpr hbal
  have hcore : giveCore b s r a =
      (.ok (a - giveTax a) (giveTax a),
        addBal (addBal (addBal b s (-a)) r (a - giveTax a)) OWNER_ID (giveTax a)) := by
    unfold giveCore
    simp [hnl, giveTax]
  rw [hcore]
  have hs : addBal (addBal (addBal b s (-a)) r (a - giveTax a)) OWNER_ID (giveTax a) s
      = b s - a := by
    rw [addBal_ne _ _ _ _ hso, addBal_ne _ _ _ _ hsr, addBal_eq]
    ring
  have hr : addBal (addBal (addBal b s (-a)) r (a - giveTax a)) OWNER_ID (giveTax a) r
      = b r + (a - giveTax a) := by
    rw [addBal_ne _ _ _ _ hro, addBal_eq, addBal_ne _ _ _ _ (Ne.symm hsr)]
  have ho : addBal (addBal (addBal b s (-a)) r (a - giveTax a)) OWNER_ID (giveTax a) OWNER_ID
      = b OWNER_ID + giveTax a := by
    rw [addBal_eq, addBal_ne _ _ _ _ (Ne.symm hro), addBal_ne _ _ _ _ (Ne.symm hso)]
  refine ⟨rfl, hs, hr, ho, ?_⟩
  simp only [hs, hr, ho]
  ring

/-- Witness for C1 at a concrete instance: all balances 1000, sender 1,
receiver 2, amount 100 (tax 2, net 98). -/
theorem give_transfer_conserves_witness :
    (giveCore (fun _ => 1000) 1 2 100).1 = .ok 98 2 ∧
    (giveCore (fun _ => 1000) 1 2 100).2 1 = 900 ∧
    (giveCore (fun _ => 1000) 1 2 100).2 2 = 1098 ∧
    (giveCore (fun _ => 1000) 1 2 100).2 OWNER_ID = 1002 := by
  have h := give_transfer_conserves (fun _ => 1000) 1 2 100 (by decide) (by decide)
    (by decide) (by decide) (by decide) (by decide)
  refine ⟨h.1.trans (by decide), h.2.1.trans (by decide),
    h.2.2.1.trans (by decide), h.2.2.2.1.trans (by decide)⟩

/-- C10: the `/give` command rejects every amount above 1,000,000 before
touching any balance: it reports the too-large error and returns the
`balances` table unchanged, regardless of the sender's balance. -/
theorem give_cap_rejects (b : Bal) (s r : UserId) (isBot : Bool) (a : Int)
    (h : 1000000 < a) :
    give b s r isBot a = (.tooLarge, b) := by
  unfold give
  rw [if_neg (by omega), if_pos h]

/-- Witness for C10: a 2,000,000 transfer is rejected even with balance
5,000,000. -/
theorem give_cap_rejects_witness :
    give (fun _ => 5000000) 1 2 false 2000000 = (.tooLarge, fun _ => 5000000) :=
  give_cap_rejects _ 1 2 false 2000000 (by decide)

/-- C3 counterexample: a self-transfer of 2,000,000 (with ample balance) is
rejected by the amount-cap guard, which runs before the self-transfer
guard, so it does not fail with the self-transfer error kind as the claim
states. -/
theorem give_selfTransfer_preempted_cx :
    (give (fun _ => 5000000) 7 7 false 2000000).1 = .tooLarge ∧
    (give (fun _ => 5000000) 7 7 false 2000000).1 ≠ .selfTransfer := by
  constructor <;> decide

/-- C3 (amended): a non-positive amount fails with the invalid-amount kind;
a self-transfer of a positive amount within the 1,000,000 cap fails with
the self-transfer kind; a transfer of a positive amount within the cap to a
distinct non-bot receiver with the sender balance below the amount fails
with the insufficient-funds kind; each of these failures leaves every
balance unchanged. -/
theorem give_error_cases (b : Bal) (s r : UserId) (isBot : Bool) (a : Int) :
    (a ≤ 0 → give b s r isBot a = (.invalidAmount, b)) ∧
    (0 < a → a ≤ 1000000 → s = r → give b s r isBot a = (.selfTransfer, b)) ∧
    (0 < a → a ≤ 1000000 → s ≠ r → isBot = false → b s < a →
      give b s r isBot a = (.insufficient (b s), b)) := by
  refine ⟨?_, ?_, ?_⟩
  · intro h
    unfold give
    rw [if_pos h]
  · intro h1 h2 hsr
    unfold give
    rw [if_neg (by omega), if_neg (by omega), if_pos hsr]
  · intro h1 h2 hsr hbot hlt
    unfold give giveCore
    rw [if_neg (by omega), if_neg (by omega), if_neg hsr, hbot]
    simp [hlt]

/-- Witness for C3 (amended) at concrete instances of each failure. -/
theorem give_error_cases_witness :
    give (fun _ => (0:Int)) 1 2 false (-3) = (.invalidAmount, fun _ => 0) ∧
    give (fun _ => (0:Int)) 1 1 false 5 = (.selfTransfer, fun _ => 0) ∧
    give (fun _ => (0:Int)) 1 2 false 5 = (.insufficient 0, fun _ => 0) :=
  ⟨(give_error_cases _ 1 2 false (-3)).1 (by decide),
   (give_error_cases _ 1 1 false 5).2.1 (by decide) (by decide) rfl,
   (give_error_cases _ 1 2 false 5).2.2 (by decide) (by decide) (by decide) rfl
     (by decide)⟩

/-- The whole `/give` command keeps all stored balances non-negative. -/
theorem give_preserves_nonneg (b : Bal) (s r : UserId) (isBot : Bool) (a : Int)
    (hn : NonNeg b) : NonNeg (give b s r isBot a).2 := by
  unfold give
  split
  · exact hn
  next ha =>
    split
    · exact hn
    split
    · exact hn
    next hsr =>
      split
      · exact hn
      unfold giveCore
      simp only
      split
      · exact hn
      next hins =>
        have htax : 1 ≤ giveTax a := giveTax_pos a
        have hnet : 0 ≤ a - giveTax a := by
          have := giveTax_le a (by omega)
          omega
        have hsa : 0 ≤ b s - a := by omega
        intro w
        have hw := hn w
        have hsv := hn s
        simp only [addBal]
        split_ifs <;> subst_vars <;> omega

/-- Adding a non-negative delta to one account keeps all balances
non-negative. -/
theorem addBal_nonneg (b : Bal) (u : UserId) (d : Int) (hn : NonNeg b)
    (hd : 0 ≤ d) : NonNeg (addBal b u d) := by
  intro w
  unfold addBal
  split
  · have := hn w
    omega
  · exact hn w

/-- `daily` either leaves the balances unchanged or adds the gain of 50. -/
theorem daily_bal_cases (st : BotState) (u : UserId) (now : Int) :
    (daily st u now).2.bal = st.bal ∨
    (daily st u now).2.bal = addBal st.bal u 50 := by
  unfold daily
  cases st.lastDaily u with
  | none => right; rfl
  | some t =>
    by_cases h : now - t < 86400
    · left; simp [h]
    · right; simp [h]

/-- `onMessage` either leaves the balances unchanged or adds 1. -/
theorem onMessage_bal_cases (st : BotState) (u : UserId) (now : Int) :
    (onMessage st u now).2.bal = st.bal ∨
    (onMessage st u now).2.bal = addBal st.bal u 1 := by
  unfold onMessage
  cases st.lastMsg u with
  | none => right; rfl
  | some t =>
    by_cases h : 20 ≤ now - t
    · right
      simp [h]
    · left
      simp [h]

/-- C2 counterexample: the legacy db.py `update_balance` applies a negative
delta with no floor and no check, so after adjusting a fresh user by -5 the
db.py `get_balance` returns -5, a negative value. -/
theorem db_negative_balance_cx :
    db_get_balance (db_update_balance (fun _ => none) 1 (-5)) 1 = -5 ∧
    db_get_balance (db_update_balance (fun _ => none) 1 (-5)) 1 < 0 := by
  constructor <;> decide

/-- C2 (amended): every balance-mutating operation of the bot layer
(adjust, set, daily grant, message grant, transfer) keeps every stored
balance non-negative, and the bot layer `get_balance` never returns a
negative value; the legacy db.py layer does not floor (see the
counterexample). -/
theorem bot_balances_nonneg (op : BotOp) (st : BotState) (b : Bal)
    (u : UserId) (hn : NonNeg st.bal) :
    NonNeg (botStep op st).bal ∧ 0 ≤ get_balance b u := by
  refine ⟨?_, le_max_left 0 (b u)⟩
  cases op with
  | adjust v amount =>
    intro w
    unfold botStep update_balance
    simp only
    split
    · exact hn w
    · simp only
      split
      · exact le_max_left 0 _
      · exact hn w
  | setTo v amount =>
    intro w
    unfold botStep set_balance
    simp only
    split
    · exact le_max_left 0 _
    · exact hn w
  | claimDaily v now =>
    show NonNeg (daily st v now).2.bal
    rcases daily_bal_cases st v now with h | h
    · rw [h]
      exact hn
    · rw [h]
      exact addBal_nonneg st.bal v 50 hn (by omega)
  | message v now =>
    show NonNeg (onMessage st v now).2.bal
    rcases onMessage_bal_cases st v now with h | h
    · rw [h]
      exact hn
    · rw [h]
      exact addBal_nonneg st.bal v 1 hn (by omega)
  | giveCmd s r isBot amount =>
    exact give_preserves_nonneg st.bal s r isBot amount hn

/-- Witness for C2 (amended): the adjust operation on the all-zero state,
and a concrete `get_balance` read. -/
theorem bot_balances_nonneg_witness :
    NonNeg (botStep (.adjust 1 (-5)) ⟨fun _ => 0, fun _ => none, fun _ => none⟩).bal ∧
    0 ≤ get_balance (fun _ => 0) 5 :=
  bot_balances_nonneg (.adjust 1 (-5)) ⟨fun _ => 0, fun _ => none, fun _ => none⟩
    (fun _ => 0) 5 (fun _ => le_refl 0)

/-- C4 counterexample: the claim requires a clamp-mode adjust that leaves
the balance at exactly 0; the only adjust implementation that does not
reject (db.py `update_balance`), applied at balance 3 with delta -5,
succeeds but leaves -2, not 0. -/
theorem adjust_clamp_cx :
    (db_update_balance (fun _ => some 3) 1 (-5)) 1 = some (-2) ∧
    ¬ ((-2 : Int) = 0) := by
  constructor <;> decide

/-- C4 (amended): with the current balance below N (N > 0), the bot layer
`update_balance(u, -N)` fails and leaves the table unchanged (reject
semantics), while the legacy db.py `update_balance(u, -N)` applies the
delta unchecked and leaves the (negative) balance `c - N`; no
clamp-to-zero adjust mode exists in the code. -/
theorem adjust_insufficient_modes (b : Bal) (t : UsersTable) (u : UserId)
    (N c : Int) (hN : 0 < N) (hb : b u < N) (ht : t u = some c) (hc : c < N) :
    update_balance b u (-N) = (false, b) ∧
    db_update_balance t u (-N) u = some (c - N) ∧ c - N < 0 := by
  refine ⟨?_, ?_, by omega⟩
  · unfold update_balance
    rw [if_pos ⟨by omega, by omega⟩]
  · unfold db_update_balance usersUpsertAdd
    simp [ht]
    omega

/-- A daily claim within 24h of the recorded last claim reports the
remaining time and changes nothing. -/
theorem daily_cooldown_of (st : BotState) (u : UserId) (t now : Int)
    (h1 : st.lastDaily u = some t) (h2 : now - t < 86400) :
    daily st u now = (.cooldown (86400 - (now - t)), st) := by
  unfold daily
  rw [h1]
  simp [h2]

/-- A granted daily claim records `now` as the last claim. -/
theorem daily_grant_sets (st : BotState) (u : UserId) (now : Int)
    (h : st.lastDaily u = none) :
    (daily st u now).2.lastDaily u = some now := by
  unfold daily
  rw [h]
  simp

/-- C5: a daily claim whose recorded last claim is less than 24h (86400 s)
old reports the cooldown with the exact remaining time and grants nothing;
a message whose recorded last message is less than 20 s old grants
nothing; and after a granted daily claim at time `now`, a second claim at
any `now2` less than 24h later reports the cooldown with remaining
`86400 - (now2 - now)` and changes nothing. -/
theorem cooldown_windows (st : BotState) (u : UserId) (t now now2 : Int) :
    (st.lastDaily u = some t → now - t < 86400 →
      daily st u now = (.cooldown (86400 - (now - t)), st)) ∧
    (st.lastMsg u = some t → now - t < 20 →
      onMessage st u now = (false, st)) ∧
    (st.lastDaily u = none → now2 - now < 86400 →
      daily (daily st u now).2 u now2
        = (.cooldown (86400 - (now2 - now)), (daily st u now).2)) := by
  refine ⟨daily_cooldown_of st u t now, ?_, ?_⟩
  · intro h1 h2
    unfold onMessage
    rw [h1]
    simp
    omega
  · intro h1 h2
    exact daily_cooldown_of _ u now now2 (daily_grant_sets st u now h1) h2

/-- Witness for C5: a user who claimed at time 1000 is rejected at 2000
with 85400 s remaining, a message 10 s after the last one grants nothing,
and a fresh user granted at 1000 is rejected at 2000. -/
theorem cooldown_windows_witness :
    daily ⟨fun _ => 0, fun _ => some 1000, fun _ => none⟩ 1 2000
        = (.cooldown 85400, ⟨fun _ => 0, fun _ => some 1000, fun _ => none⟩) ∧
    onMessage ⟨fun _ => 0, fun _ => none, fun _ => some 1000⟩ 1 1010
        = (false, ⟨fun _ => 0, fun _ => none, fun _ => some 1000⟩) ∧
    daily (daily ⟨fun _ => 0, fun _ => none, fun _ => none⟩ 1 1000).2 1 2000
        = (.cooldown 85400,
            (daily ⟨fun _ => 0, fun _ => none, fun _ => none⟩ 1 1000).2) := by
  have h := cooldown_windows ⟨fun _ => 0, fun _ => some 1000, fun _ => none⟩ 1 1000 2000 0
  have h2 := cooldown_windows ⟨fun _ => 0, fun _ => none, fun _ => some 1000⟩ 1 1000 1010 0
  have h3 := cooldown_windows ⟨fun _ => 0, fun _ => none, fun _ => none⟩ 1 0 1000 2000
  exact ⟨(h.1 rfl (by decide)).trans (by norm_num),
    h2.2.1 rfl (by decide),
    (h3.2.2 rfl (by decide)).trans (by norm_num)⟩

/-- A purchase record for `(u, i)` makes `hasRecord` true after appending. -/
theorem hasRecord_append_self (ps : List Purchase) (u : UserId) (i : Nat)
    (pr : Int) : hasRecord (ps ++ [⟨u, i, pr⟩]) u i = true := by
  unfold hasRecord
  simp

/-- Without a record for `(u, i)` the record count is zero. -/
theorem recordCount_eq_zero (ps : List Purchase) (u : UserId) (i : Nat)
    (h : hasRecord ps u i = false) : recordCount ps u i = 0 := by
  unfold hasRecord at h
  unfold recordCount
  simp only [List.any_eq_false] at h
  simp only [List.length_eq_zero, List.filter_eq_nil_iff]
  exact h

/-- Appending a record for `(u, i)` increases the record count by one. -/
theorem recordCount_append_one (ps : List Purchase) (u : UserId) (i : Nat)
    (pr : Int) : recordCount (ps ++ [⟨u, i, pr⟩]) u i = recordCount ps u i + 1 := by
  unfold recordCount
  simp

/-- Shape of a purchase when the item is missing. -/
theorem purchase_item_missing (st : ShopState) (u : UserId) (i : Nat)
    (hit : st.items i = none) :
    purchase_item st u i = (.itemUnavailable, st) := by
  unfold purchase_item
  rw [hit]

/-- Shape of a purchase when the item is inactive. -/
theorem purchase_item_inactive (st : ShopState) (u : UserId) (i : Nat)
    (it : ShopItem) (hit : st.items i = some it) (hact : it.isActive = false) :
    purchase_item st u i = (.itemUnavailable, st) := by
  unfold purchase_item
  rw [hit]
  simp [hact]

/-- Shape of a purchase of an owned role item. -/
theorem purchase_item_owned (st : ShopState) (u : UserId) (i : Nat)
    (it : ShopItem) (hit : st.items i = some it) (hact : it.isActive = true)
    (hrole : it.type = "role") (hhas : hasRecord st.purchases u i = true) :
    purchase_item st u i = (.alreadyOwned, st) := by
  unfold purchase_item
  rw [hit]
  simp [hact, hrole, hhas]

/-- Shape of a purchase with insufficient funds. -/
theorem purchase_item_poor (st : ShopState) (u : UserId) (i : Nat)
    (it : ShopItem) (hit : st.items i = some it) (hact : it.isActive = true)
    (hgate : (it.type == "role" && hasRecord st.purchases u i) = false)
    (hb : (st.users u).getD 0 < it.price) :
    purchase_item st u i = (.insufficient ((st.users u).getD 0), st) := by
  unfold purchase_item
  rw [hit]
  simp [hact, hgate, hb]

/-- Shape of a successful purchase. -/
theorem purchase_item_success (st : ShopState) (u : UserId) (i : Nat)
    (it : ShopItem) (hit : st.items i = some it) (hact : it.isActive = true)
    (hgate : (it.type == "role" && hasRecord st.purchases u i) = false)
    (hb : it.price ≤ (st.users u).getD 0) :
    purchase_item st u i =
      (.ok, { st with users := usersDebit st.users u it.price,
                      purchases := st.purchases ++ [⟨u, i, it.price⟩] }) := by
  unfold purchase_item
  rw [hit]
  simp [hact, hgate, not_lt.mpr hb]

/-- Debiting an existing row subtracts from it. -/
theorem usersDebit_of_some (t : UsersTable) (u : UserId) (c amount : Int)
    (h : t u = some c) : usersDebit t u amount u = some (c - amount) := by
  unfold usersDebit
  simp [h]

/-- A positive price covered by the buyer's read balance forces the buyer
row to be present. -/
theorem users_row_of_covering (t : UsersTable) (u : UserId) (price : Int)
    (hp : 0 < price) (hb : price ≤ (t u).getD 0) :
    t u = some ((t u).getD 0) := by
  cases h : t u with
  | none =>
    rw [h] at hb
    simp at hb
    omega
  | some c => rfl

/-- C6: for a one-shot (role-typed) item, `purchase_item` keeps the number
of purchase records per `(user, item)` pair at most one; concretely, with
no prior record, sufficient funds and a positive price, the first purchase
succeeds, a second attempt fails as already-owned, and across the two
calls the buyer is debited exactly once and exactly one record exists. -/
theorem oneshot_single_purchase (st : ShopState) (u : UserId) (i : Nat)
    (it : ShopItem) (hit : st.items i = some it) (hrole : it.type = "role")
    (hact : it.isActive = true) (hno : hasRecord st.purchases u i = false)
    (hprice : 0 < it.price) (hbal : it.price ≤ (st.users u).getD 0) :
    (∀ st2 : ShopState, st2.items i = some it →
        recordCount st2.purchases u i ≤ 1 →
        recordCount (purchase_item st2 u i).2.purchases u i ≤ 1) ∧
    (purchase_item st u i).1 = .ok ∧
    (purchase_item (purchase_item st u i).2 u i).1 = .alreadyOwned ∧
    (purchase_item (purchase_item st u i).2 u i).2.users u
        = some ((st.users u).getD 0 - it.price) ∧
    recordCount (purchase_item (purchase_item st u i).2 u i).2.purchases u i
        = 1 := by
  have hgate : (it.type == "role" && hasRecord st.purchases u i) = false := by
    rw [hno, Bool.and_false]
  have hfirst := purchase_item_success st u i it hit hact hgate hbal
  have hrow := users_row_of_covering st.users u it.price hprice hbal
  have hsnd := purchase_item_owned (purchase_item st u i).2 u i it
    (by rw [hfirst]; exact hit) (hact) (hrole)
    (by rw [hfirst]; exact hasRecord_append_self st.purchases u i it.price)
  refine ⟨?_, by rw [hfirst], by rw [hsnd], ?_, ?_⟩
  · intro st2 hit2 hcnt
    by_cases hh : hasRecord st2.purchases u i = true
    · rw [purchase_item_owned st2 u i it hit2 hact hrole hh]
      exact hcnt
    · rw [Bool.not_eq_true] at hh
      have hg2 : (it.type == "role" && hasRecord st2.purchases u i) = false := by
        rw [hh, Bool.and_false]
      by_cases hb2 : it.price ≤ (st2.users u).getD 0
      · rw [purchase_item_success st2 u i it hit2 hact hg2 hb2]
        simp only [recordCount_append_one]
        rw [recordCount_eq_zero st2.purchases u i hh]
      · rw [purchase_item_poor st2 u i it hit2 hact hg2 (by omega)]
        exact hcnt
  · rw [hsnd, hfirst]
    exact usersDebit_of_some st.users u _ it.price hrow
  · rw [hsnd, hfirst]
    simp only [recordCount_append_one]
    rw [recordCount_eq_zero st.purchases u i hno]

/-- Membership in an insertion is membership in the parts. -/
theorem mem_insertDesc (p q : UserId × Int) (l : List (UserId × Int)) :
    q ∈ insertDesc p l ↔ q = p ∨ q ∈ l := by
  induction l with
  | nil => simp [insertDesc]
  | cons a as ih =>
    unfold insertDesc
    split
    · simp
    · simp only [List.mem_cons, ih]
      tauto

/-- Inserting into a descending-sorted list keeps it descending-sorted. -/
theorem insertDesc_pairwise (p : UserId × Int) (l : List (UserId × Int))
    (h : List.Pairwise (fun a b => b.2 ≤ a.2) l) :
    List.Pairwise (fun a b => b.2 ≤ a.2) (insertDesc p l) := by
  induction l with
  | nil => simp [insertDesc]
  | cons a as ih =>
    rw [List.pairwise_cons] at h
    unfold insertDesc
    split
    next hlt =>
      rw [List.pairwise_cons]
      refine ⟨?_, List.pairwise_cons.mpr h⟩
      intro b hb
      rcases List.mem_cons.mp hb with rfl | hb2
      · omega
      · have := h.1 b hb2
        omega
    next hge =>
      rw [List.pairwise_cons]
      refine ⟨?_, ih h.2⟩
      intro b hb
      rcases (mem_insertDesc p b as).mp hb with rfl | hb2
      · omega
      · exact h.1 b hb2

/-- `sortDesc` sorts by balance descending. -/
theorem sortDesc_pairwise (l : List (UserId × Int)) :
    List.Pairwise (fun a b => b.2 ≤ a.2) (sortDesc l) := by
  induction l with
  | nil => simp [sortDesc]
  | cons a as ih => exact insertDesc_pairwise a (sortDesc as) ih

/-- `sortDesc` has the same members as its input. -/
theorem mem_sortDesc (q : UserId × Int) (l : List (UserId × Int)) :
    q ∈ sortDesc l ↔ q ∈ l := by
  induction l with
  | nil => simp [sortDesc]
  | cons a as ih =>
    unfold sortDesc
    rw [mem_insertDesc, ih, List.mem_cons]

/-- C9: every pair returned by `get_top_users` has a strictly positive
balance (a user with balance 0 never appears), the returned list is
ordered by balance descending, and its length is at most the given
limit. -/
theorem get_top_users_spec (rows : List (UserId × Int)) (limit : Nat) :
    (∀ p ∈ get_top_users rows limit, 0 < p.2) ∧
    List.Pairwise (fun a b => b.2 ≤ a.2) (get_top_users rows limit) ∧
    (get_top_users rows limit).length ≤ limit := by
  refine ⟨?_, ?_, ?_⟩
  · intro p hp
    have hmem := List.take_subset limit _ hp
    rw [mem_sortDesc] at hmem
    have := List.of_mem_filter hmem
    simpa using this
  · exact (sortDesc_pairwise _).take
  · exact List.length_take_le limit _

/-- Witness for C9 on a concrete table with a zero, a negative and three
positive balances. -/
theorem get_top_users_spec_witness :
    (0 : Int) < ((3 : UserId), (7 : Int)).2 ∧
    List.Pairwise (fun a b => b.2 ≤ a.2)
      (get_top_users [((1:UserId), (5:Int)), (2, 0), (3, 7), (4, -2), (5, 6)] 2) ∧
    (get_top_users [((1:UserId), (5:Int)), (2, 0), (3, 7), (4, -2), (5, 6)] 2).length ≤ 2 := by
  have h := get_top_users_spec [((1:UserId), (5:Int)), (2, 0), (3, 7), (4, -2), (5, 6)] 2
  exact ⟨h.1 (3, 7) (by decide), h.2.1, h.2.2⟩

/-- Witness for C6: user 1 with balance 500 buying role item 3 (price 100)
twice. -/
theorem oneshot_single_purchase_witness :
    (purchase_item
        ⟨fun u => if u = 1 then some 500 else none,
         fun j => if j = 3 then some ⟨100, "role", true⟩ else none, []⟩ 1 3).1
      = .ok ∧
    (purchase_item (purchase_item
        ⟨fun u => if u = 1 then some 500 else none,
         fun j => if j = 3 then some ⟨100, "role", true⟩ else none, []⟩ 1 3).2 1 3).1
      = .alreadyOwned := by
  have h := oneshot_single_purchase
    ⟨fun u => if u = 1 then some 500 else none,
     fun j => if j = 3 then some ⟨100, "role", true⟩ else none, []⟩ 1 3
    ⟨100, "role", true⟩ rfl rfl rfl rfl (by decide) (by decide)
  exact ⟨h.2.1, h.2.2.1⟩

/-- C7: the purchase flow fails when the item is missing or inactive, fails
with the insufficient-funds kind (carrying the read balance) when the
buyer's balance is below the price, and otherwise (price positive, balance
sufficient, and not an already-owned role item) debits the buyer by exactly
the price and appends a purchase record carrying the price paid; every
failure returns the state unchanged. -/
theorem purchase_flow_correct (st : ShopState) (u : UserId) (i : Nat) :
    (st.items i = none → purchase_item st u i = (.itemUnavailable, st)) ∧
    (∀ it : ShopItem, st.items i = some it → it.isActive = false →
      purchase_item st u i = (.itemUnavailable, st)) ∧
    (∀ it : ShopItem, st.items i = some it → it.isActive = true →
      (it.type == "role" && hasRecord st.purchases u i) = false →
      (st.users u).getD 0 < it.price →
      purchase_item st u i = (.insufficient ((st.users u).getD 0), st)) ∧
    (∀ it : ShopItem, st.items i = some it → it.isActive = true →
      (it.type == "role" && hasRecord st.purchases u i) = false →
      0 < it.price → it.price ≤ (st.users u).getD 0 →
      (purchase_item st u i).1 = .ok ∧
      (purchase_item st u i).2.users u = some ((st.users u).getD 0 - it.price) ∧
      (purchase_item st u i).2.purchases = st.purchases ++ [⟨u, i, it.price⟩] ∧
      (purchase_item st u i).2.items = st.items) := by
  refine ⟨purchase_item_missing st u i,
    fun it hit hact => purchase_item_inactive st u i it hit hact,
    fun it hit hact hgate hb => purchase_item_poor st u i it hit hact hgate hb,
    fun it hit hact hgate hp hb => ?_⟩
  have hrow := users_row_of_covering st.users u it.price hp hb
  rw [purchase_item_success st u i it hit hact hgate hb]
  exact ⟨rfl, usersDebit_of_some st.users u _ it.price hrow, rfl, rfl⟩

/-- Witness for C7 at a concrete shop: missing item, inactive item,
insufficient funds, and a successful purchase. -/
theorem purchase_flow_correct_witness :
    purchase_item
        ⟨fun u => if u = 1 then some 500 else none,
         fun j => if j = 3 then some ⟨100, "role", true⟩ else none, []⟩ 1 4
      = (.itemUnavailable,
         ⟨fun u => if u = 1 then some 500 else none,
          fun j => if j = 3 then some ⟨100, "role", true⟩ else none, []⟩) ∧
    purchase_item
        ⟨fun u => if u = 1 then some 500 else none,
         fun j => if j = 3 then some ⟨100, "role", true⟩ else none, []⟩ 2 3
      = (.insufficient 0,
         ⟨fun u => if u = 1 then some 500 else none,
          fun j => if j = 3 then some ⟨100, "role", true⟩ else none, []⟩) ∧
    (purchase_item
        ⟨fun u => if u = 1 then some 500 else none,
         fun j => if j = 3 then some ⟨100, "role", true⟩ else none, []⟩ 1 3).1
      = .ok := by
  have h := purchase_flow_correct
    ⟨fun u => if u = 1 then some 500 else none,
     fun j => if j = 3 then some ⟨100, "role", true⟩ else none, []⟩ 1 3
  have h2 := purchase_flow_correct
    ⟨fun u => if u = 1 then some 500 else none,
     fun j => if j = 3 then some ⟨100, "role", true⟩ else none, []⟩ 2 3
  have h4 := purchase_flow_correct
    ⟨fun u => if u = 1 then some 500 else none,
     fun j => if j = 3 then some ⟨100, "role", true⟩ else none, []⟩ 1 4
  exact ⟨h4.1 rfl,
    h2.2.2.1 ⟨100, "role", true⟩ rfl rfl (by decide) (by decide),
    (h.2.2.2 ⟨100, "role", true⟩ rfl rfl (by decide) (by decide) (by decide)).1⟩

/-- C8: for an item whose type is not "role", `purchase_item` never returns
the already-owned rejection, and for an active such item every call with
sufficient funds (in any state, whatever purchase records already exist)
succeeds, debits the buyer by the price and appends a fresh record. -/
theorem nonrole_repeat_purchase (st : ShopState) (u : UserId) (i : Nat)
    (it : ShopItem) (hit : st.items i = some it) (hrole : it.type ≠ "role") :
    (purchase_item st u i).1 ≠ .alreadyOwned ∧
    (it.isActive = true → 0 < it.price → it.price ≤ (st.users u).getD 0 →
      (purchase_item st u i).1 = .ok ∧
      (purchase_item st u i).2.users u = some ((st.users u).getD 0 - it.price) ∧
      (purchase_item st u i).2.purchases = st.purchases ++ [⟨u, i, it.price⟩]) := by
  have hg : (it.type == "role") = false := by
    rw [beq_eq_false_iff_ne]
    exact hrole
  have hgate : (it.type == "role" && hasRecord st.purchases u i) = false := by
    rw [hg, Bool.false_and]
  constructor
  · cases hact : it.isActive with
    | false =>
      rw [purchase_item_inactive st u i it hit hact]
      simp
    | true =>
      by_cases hb : it.price ≤ (st.users u).getD 0
      · rw [purchase_item_success st u i it hit hact hgate hb]
        simp
      · rw [purchase_item_poor st u i it hit hact hgate (by omega)]
        simp
  · intro hact hp hb
    have hrow := users_row_of_covering st.users u it.price hp hb
    rw [purchase_item_success st u i it hit hact hgate hb]
    exact ⟨rfl, usersDebit_of_some st.users u _ it.price hrow, rfl⟩

/-- Witness for C8: a generic item bought twice by the same user, both
calls succeeding. -/
theorem nonrole_repeat_purchase_witness :
    (purchase_item
        ⟨fun u => if u = 1 then some 500 else none,
         fun j => if j = 3 then some ⟨100, "potion", true⟩ else none, []⟩ 1 3).1
      = .ok ∧
    (purchase_item (purchase_item
        ⟨fun u => if u = 1 then some 500 else none,
         fun j => if j = 3 then some ⟨100, "potion", true⟩ else none, []⟩ 1 3).2 1 3).1
      = .ok := by
  have st1 := purchase_item
    ⟨fun u => if u = 1 then some 500 else none,
     fun j => if j = 3 then some ⟨100, "potion", true⟩ else none, []⟩ 1 3
  have h1 := nonrole_repeat_purchase
    ⟨fun u => if u = 1 then some 500 else none,
     fun j => if j = 3 then some ⟨100, "potion", true⟩ else none, []⟩ 1 3
    ⟨100, "potion", true⟩ rfl (by decide)
  have h2 := nonrole_repeat_purchase
    (purchase_item
      ⟨fun u => if u = 1 then some 500 else none,
       fun j => if j = 3 then some ⟨100, "potion", true⟩ else none, []⟩ 1 3).2 1 3
    ⟨100, "potion", true⟩ (by decide) (by decide)
  exact ⟨(h1.2 rfl (by decide) (by decide)).1,
    (h2.2 rfl (by decide) (by decide)).1⟩

/-- Witness for C4 (amended) at balance 3, N = 5. -/
theorem adjust_insufficient_modes_witness :
    update_balance (fun _ => 3) 1 (-5) = (false, fun _ => 3) ∧
    db_update_balance (fun _ => some 3) 1 (-5) 1 = some (3 - 5) ∧
    (3 : Int) - 5 < 0 :=
  adjust_insufficient_modes (fun _ => 3) (fun _ => some 3) 1 5 3 (by decide)
    (by decide) rfl (by decide)
